import Mathlib

/-!
Verification development for the DRE Guardian evaluation core
(`guardian/core/brain.py`, `guardian/monitor.py`, `guardian/watcher/watcher.py`).

Modelling conventions:
* Python floats are modelled as exact rationals (`ℚ`); every IEEE value is a
  rational, and all comparisons in the source are plain value comparisons.
* `scipy.stats.beta.pdf` and `scipy.integrate.quad` are external library
  collaborators, not repository code; they are abstracted as explicit function
  parameters `betaPdf : ℚ → ℚ → ℚ → ℚ` (argument order: point, alpha, beta)
  and `integral : (ℚ → ℚ) → ℚ → ℚ → ℚ` (integrand, lower, upper).
* Timestamps are UTC epoch seconds (`ℤ`); an aware datetime is a wall-clock
  value paired with its UTC offset, a naive one has no offset.
* The append-only audit ledger is modelled by the list of events a cycle emits.
-/

namespace DRE

/-- Gate outcome statuses, as in the status strings of `brain.py`. -/
inductive GateStatus
  | PASS
  | HALT
  | SKIP
deriving DecidableEq

/-- Severity labels used by Gate 3 and audit events. -/
inductive Severity
  | INFO
  | MAJOR
  | CRITICAL
deriving DecidableEq

/-- `schema.PertDistribution`: a three-point distribution `min ≤ mode ≤ max`
(the ordering invariant is enforced by a pydantic validator at load time and is
not baked into the type). -/
structure PertDistribution where
  min : ℚ
  mode : ℚ
  max : ℚ
deriving DecidableEq

/-- `GateEngine._pert_to_beta`: PERT → Beta parameters `(alpha, beta, loc, scale)`
with `loc = min`, `scale = max - min`; degenerate zero-range input yields
`(1, 1, min, 0)`.  (The `mean`/`variance`/`mu` locals of the source do not feed
the returned tuple.) -/
def pert_to_beta (p : PertDistribution) : ℚ × ℚ × ℚ × ℚ :=
  let range_val := p.max - p.min
  if range_val = 0 then
    (1, 1, p.min, 0)
  else
    (1 + 4 * (p.mode - p.min) / range_val, 1 + 4 * (p.max - p.mode) / range_val,
      p.min, range_val)

/-- `np.clip(x, 0.0, 1.0)` as used on the overlap integral. -/
def clip01 (q : ℚ) : ℚ := max 0 (min 1 q)

/-- `GateEngine._calculate_overlap`: overlap integral of two PERT distributions.
Degenerate branches precede the support-intersection test, exactly as in the
source; the numerical quadrature is the abstract `integral` applied to the
pointwise minimum of the two scaled Beta densities. -/
def calculate_overlap (integral : (ℚ → ℚ) → ℚ → ℚ → ℚ)
    (betaPdf : ℚ → ℚ → ℚ → ℚ) (pert1 pert2 : PertDistribution) : ℚ :=
  match pert_to_beta pert1, pert_to_beta pert2 with
  | (alpha1, beta1, loc1, scale1), (alpha2, beta2, loc2, scale2) =>
    if scale1 = 0 ∧ scale2 = 0 then
      if loc1 = loc2 then 1 else 0
    else if scale1 = 0 ∨ scale2 = 0 then
      1/100
    else
      let common_min := max loc1 loc2
      let common_max := min (loc1 + scale1) (loc2 + scale2)
      if common_min ≥ common_max then 0
      else
        clip01 (integral
          (fun x => min (betaPdf ((x - loc1) / scale1) alpha1 beta1 / scale1)
                        (betaPdf ((x - loc2) / scale2) alpha2 beta2 / scale2))
          common_min common_max)

/-- A datetime value: wall-clock epoch seconds plus an optional UTC offset
(`none` = naive). -/
structure Timestamp where
  wall : ℤ
  tzOffset : Option ℤ
deriving DecidableEq

/-- UTC epoch seconds of a datetime; a naive value is interpreted as UTC
(`replace(tzinfo=timezone.utc)` keeps the wall clock). -/
def tsUtcSeconds (t : Timestamp) : ℤ := t.wall - t.tzOffset.getD 0

/-- `schema.DataBinding`. -/
structure DataBinding where
  cell : String
  named_range : Option String
  formula_hash : Option String
deriving DecidableEq

/-- `schema.Assertion`. -/
structure Assertion where
  id : String
  logical_name : String
  binding : DataBinding
  owner_role : String
  last_updated : Timestamp
  sla_days : ℤ
  baseline_value : Option ℚ
  distribution : PertDistribution
deriving DecidableEq

/-- `schema.DREManifest`, with the `conflict_pairs` list that
`monitor.run_governance_cycle` reads from the manifest. -/
structure DREManifest where
  project_id : String
  target_file : String
  stability_threshold : ℚ := 3/20
  overlap_integral_cutoff : ℚ := 1/20
  assertions : List Assertion
  conflict_pairs : List (String × String)
deriving DecidableEq

/-- Result dictionary of `gate_1_freshness`. -/
structure Gate1Result where
  status : GateStatus
  days_since_update : ℤ
  sla_days : ℤ
  owner : String
deriving DecidableEq

/-- `GateEngine.gate_1_freshness`: HALT iff the whole-day age exceeds the SLA.
`timedelta.days` is floor division of the seconds difference by 86400, which is
`Int.fdiv`. -/
def gate_1_freshness (now : ℤ) (a : Assertion) : Gate1Result :=
  let last_updated := tsUtcSeconds a.last_updated
  let days_since_update := (now - last_updated).fdiv 86400
  { status := if days_since_update > a.sla_days then .HALT else .PASS
    days_since_update := days_since_update
    sla_days := a.sla_days
    owner := a.owner_role }

/-- Result dictionary of `gate_2_stability` (only the fields the claims need;
absent dictionary keys are `none`). -/
structure Gate2Result where
  status : GateStatus
  pdf_probability : Option ℚ := none
  pdf_ratio_to_mode : Option ℚ := none
deriving DecidableEq

/-- `GateEngine.gate_2_stability`. -/
def gate_2_stability (threshold : ℚ) (betaPdf : ℚ → ℚ → ℚ → ℚ)
    (a : Assertion) (current_value : Option ℚ) : Gate2Result :=
  match current_value with
  | none => { status := .SKIP }
  | some c =>
    match pert_to_beta a.distribution with
    | (alpha, beta_param, loc, scale) =>
      if scale = 0 then
        if |c - loc| < 1/1000000000 then { status := .PASS }
        else { status := .HALT }
      else
        let current_norm := (c - loc) / scale
        if current_norm < 0 ∨ current_norm > 1 then
          { status := .HALT, pdf_probability := some 0 }
        else
          let pdf_at_current := betaPdf current_norm alpha beta_param
          let mode_norm := (a.distribution.mode - loc) / scale
          let pdf_at_mode := betaPdf mode_norm alpha beta_param
          let pdf_ratio_to_mode :=
            if pdf_at_mode > 0 then pdf_at_current / pdf_at_mode else 0
          { status := if pdf_ratio_to_mode ≥ threshold then .PASS else .HALT
            pdf_probability := some pdf_at_current
            pdf_ratio_to_mode := some pdf_ratio_to_mode }

/-- Result dictionary of `gate_3_convergence`. -/
structure Gate3Result where
  status : GateStatus
  severity : Severity
  overlap_integral : ℚ
deriving DecidableEq

/-- `GateEngine.gate_3_convergence`. -/
def gate_3_convergence (overlap_cutoff : ℚ) (integral : (ℚ → ℚ) → ℚ → ℚ → ℚ)
    (betaPdf : ℚ → ℚ → ℚ → ℚ) (a1 a2 : Assertion) : Gate3Result :=
  let overlap := calculate_overlap integral betaPdf a1.distribution a2.distribution
  if overlap ≥ overlap_cutoff then
    { status := .PASS, severity := .INFO, overlap_integral := overlap }
  else
    { status := .HALT
      severity := if overlap < 1/100 then .CRITICAL else .MAJOR
      overlap_integral := overlap }

/-- Result dictionary of `gate_4_structure`. -/
structure Gate4Result where
  status : GateStatus
deriving DecidableEq

/-- `GateEngine.gate_4_structure`: SKIP when either fingerprint is absent, else
PASS iff they match. -/
def gate_4_structure (stored_hash current_hash : Option String) : Gate4Result :=
  match stored_hash, current_hash with
  | some s, some c => { status := if s = c then .PASS else .HALT }
  | _, _ => { status := .SKIP }

/-- What `DREMonitor.register_bypass` stores in `active_bypasses`; the
`timestamp`/`expiry` ISO strings are modelled as UTC epoch seconds. -/
structure BypassRecord where
  justification : String
  signature : String
  signature_hash : String
  requested_at : ℤ
  expiry : ℤ
deriving DecidableEq

/-- One entry of `ExcelIngestor.read_data`'s result map
(`{"value": ..., "formula_hash": ...}`). -/
structure CellData where
  value : Option ℚ
  formula_hash : Option String
deriving DecidableEq

/-- One entry of the per-assertion report built by `run_governance_cycle`:
its `gate_status` dictionary holds exactly the statuses of the stored gate
results, so only the full results are kept here. -/
structure AssertionReport where
  id : String
  logical_name : String
  owner_role : String
  gate1 : Gate1Result
  gate2 : Gate2Result
  gate4 : Gate4Result
deriving DecidableEq

/-- Value of `self.last_status` (the `ERROR` branch drops the message text). -/
inductive CycleStatus
  | IDLE
  | PASS
  | HALT
  | ERROR
deriving DecidableEq

/-- One `audit_logger.log_event` call (the fields the claims talk about). -/
structure AuditEvent where
  event_type : String
  assertion_id : String
  severity : String
deriving DecidableEq

/-- The mutable fields of `DREMonitor` that form the CycleState. -/
structure MonitorState where
  last_check : Option ℤ
  total_checks : ℕ
  halt_count : ℕ
  last_status : CycleStatus
  current_assertions : List AssertionReport
  active_bypasses : List (String × BypassRecord)
deriving DecidableEq

/-- Severity label as the string stored in an audit event. -/
def Severity.toStr : Severity → String
  | .INFO => "INFO"
  | .MAJOR => "MAJOR"
  | .CRITICAL => "CRITICAL"

/-- The suppression test of `run_governance_cycle` (and of the spec's
`isSuppressed`): a record exists for the id and `now` is strictly before its
expiry. `active_bypasses` is a Python dict; an association list with
first-match lookup models it. -/
def isSuppressed (ledger : List (String × BypassRecord)) (now : ℤ)
    (assertion_id : String) : Bool :=
  match ledger.lookup assertion_id with
  | some r => decide (now < r.expiry)
  | none => false

/-- `raw_halt: "HALT" in [g1, g2, g4 statuses]` for a report entry. -/
def rawHalt (e : AssertionReport) : Bool :=
  decide (e.gate1.status = .HALT ∨ e.gate2.status = .HALT ∨ e.gate4.status = .HALT)

/-- The per-assertion body of `run_governance_cycle`'s first loop: run Gates
1, 2, 4 on the ingested cell data and build the report entry. -/
def evalAssertion (betaPdf : ℚ → ℚ → ℚ → ℚ) (threshold : ℚ) (now : ℤ)
    (data : String → CellData) (a : Assertion) : AssertionReport :=
  { id := a.id
    logical_name := a.logical_name
    owner_role := a.owner_role
    gate1 := gate_1_freshness now a
    gate2 := gate_2_stability threshold betaPdf a (data a.id).value
    gate4 := gate_4_structure a.binding.formula_hash (data a.id).formula_hash }

/-- Audit key of a conflict-pair event: `f"{id1}+{id2}"`. -/
def pairKey (id1 id2 : String) : String := id1 ++ "+" ++ id2

/-- The computation of one evaluation pass (the body of
`run_governance_cycle`'s `try` block up to the state update). -/
structure CyclePass where
  report : List AssertionReport
  conflict_results : List (String × String × Gate3Result)
  global_halt : Bool
  events : List AuditEvent
deriving DecidableEq

/-- One evaluation pass: per-assertion Gates 1/2/4 with bypass suppression,
then Gate 3 for every configured conflict pair whose two ids resolve to
assertions; `global_halt` accumulates unsuppressed per-assertion HALTs and
every Gate 3 HALT (the Gate 3 loop has no suppression check).  Audit events
are emitted per unsuppressed per-assertion HALT (severity CRITICAL) and per
Gate 3 HALT, in loop order. -/
def cyclePass (betaPdf : ℚ → ℚ → ℚ → ℚ) (integral : (ℚ → ℚ) → ℚ → ℚ → ℚ)
    (m : DREManifest) (now : ℤ) (data : String → CellData)
    (ledger : List (String × BypassRecord)) : CyclePass :=
  let report := m.assertions.map (evalAssertion betaPdf m.stability_threshold now data)
  let haltEvents := report.filterMap (fun e =>
    if rawHalt e && !(isSuppressed ledger now e.id) then
      some { event_type := "HALT", assertion_id := e.id, severity := "CRITICAL" }
    else none)
  let conflict_results := m.conflict_pairs.filterMap (fun p =>
    match m.assertions.find? (fun a => a.id == p.1),
          m.assertions.find? (fun a => a.id == p.2) with
    | some a1, some a2 =>
      some (p.1, p.2, gate_3_convergence m.overlap_integral_cutoff integral betaPdf a1 a2)
    | _, _ => none)
  let conflictEvents := conflict_results.filterMap (fun t =>
    if t.2.2.status = .HALT then
      some { event_type := "GATE_3_CONFLICT", assertion_id := pairKey t.1 t.2.1,
             severity := t.2.2.severity.toStr }
    else none)
  let global_halt :=
    report.any (fun e => rawHalt e && !(isSuppressed ledger now e.id))
      || conflict_results.any (fun t => decide (t.2.2.status = .HALT))
  { report := report
    conflict_results := conflict_results
    global_halt := global_halt
    events := haltEvents ++ conflictEvents }

/-- `DREMonitor.run_governance_cycle`: `ingest = none` models `read_data`
raising (the `except` branch sets an ERROR status and nothing else); otherwise
the pass runs and the CycleState fields are updated.  The second component is
the list of audit events the cycle emitted. -/
def run_governance_cycle (betaPdf : ℚ → ℚ → ℚ → ℚ)
    (integral : (ℚ → ℚ) → ℚ → ℚ → ℚ) (m : DREManifest) (now : ℤ)
    (ingest : Option (String → CellData)) (st : MonitorState) :
    MonitorState × List AuditEvent :=
  match ingest with
  | none => ({ st with last_status := .ERROR }, [])
  | some data =>
    let c := cyclePass betaPdf integral m now data st.active_bypasses
    ({ st with
        last_check := some now
        total_checks := st.total_checks + 1
        last_status := if c.global_halt then .HALT else .PASS
        halt_count := st.halt_count + (if c.global_halt then 1 else 0)
        current_assertions := c.report }, c.events)

/-- The two `ValueError`s `register_bypass` can raise, each naming the
offending assertion id. -/
inductive BypassError
  | notFound (assertion_id : String)
  | notHalted (assertion_id : String)
deriving DecidableEq

/-- The assertion id a rejection names. -/
def BypassError.aid : BypassError → String
  | .notFound i => i
  | .notHalted i => i

/-- The validation `register_bypass` performs for one id against the latest
report: unknown id, or no HALT among the freshness/stability/alignment
statuses. -/
def validateBypassId (report : List AssertionReport) (assertion_id : String) :
    Option BypassError :=
  match report.find? (fun e => e.id == assertion_id) with
  | none => some (.notFound assertion_id)
  | some e => if rawHalt e then none else some (.notHalted assertion_id)

/-- The write loop of `register_bypass`: one identical record per id; a dict
write overwrites, modelled by shadowing earlier entries. -/
def writeBypasses (ids : List String) (r : BypassRecord)
    (ledger : List (String × BypassRecord)) : List (String × BypassRecord) :=
  ids.map (fun i => (i, r)) ++ ledger

/-- `DREMonitor.register_bypass`: validate every id of the batch first (a
`ValueError`, modelled as `some e` in the third component, leaves the state
untouched and emits nothing); on success write a record with
`expiry = requested_at + expiry_seconds` for every id and immediately re-run
the governance cycle. -/
def register_bypass (betaPdf : ℚ → ℚ → ℚ → ℚ)
    (integral : (ℚ → ℚ) → ℚ → ℚ → ℚ) (m : DREManifest) (now : ℤ)
    (ingest : Option (String → CellData)) (assertion_ids : List String)
    (justification signature signature_hash : String)
    (requested_at expiry_seconds : ℤ) (st : MonitorState) :
    MonitorState × List AuditEvent × Option BypassError :=
  match assertion_ids.findSome? (validateBypassId st.current_assertions) with
  | some e => (st, [], some e)
  | none =>
    let record : BypassRecord :=
      { justification := justification
        signature := signature
        signature_hash := signature_hash
        requested_at := requested_at
        expiry := requested_at + expiry_seconds }
    let st1 := { st with
      active_bypasses := writeBypasses assertion_ids record st.active_bypasses }
    let r := run_governance_cycle betaPdf integral m now ingest st1
    (r.1, r.2, none)

/-- A file-system modification event as `DREWatcher.on_modified` sees it.
The two substring tests of the source (`"~$" in src_path`,
`"audit_log.jsonl" in src_path`) are modelled as attributes of the event. -/
structure FileEvent where
  time : ℚ
  src_path : String
  is_directory : Bool
  hasTempMarker : Bool
  hasAuditMarker : Bool
deriving DecidableEq

/-- `DREWatcher.on_modified` acting on the pending debounce deadline:
irrelevant events are filtered; a matching event cancels any pending timer and
schedules a fresh one `debounce` after the event (path normalisation is
modelled as identity). -/
def on_modified (target : String) (debounce : ℚ) (pending : Option ℚ)
    (e : FileEvent) : Option ℚ :=
  if e.is_directory || e.hasTempMarker || e.hasAuditMarker then pending
  else if e.src_path == target then some (e.time + debounce)
  else pending

/-- A pending timer fires once its deadline is reached; deadlines at or before
the next observed instant have fired and can no longer be cancelled. -/
def stepFires (pending : Option ℚ) (t : ℚ) : List ℚ × Option ℚ :=
  match pending with
  | some f => if f ≤ t then ([f], none) else ([], some f)
  | none => ([], none)

/-- Deterministic event-trace semantics of the watcher's debounce timer:
process time-ordered events, firing pending deadlines that elapse between
events, and let the final pending timer fire after the trace ends.  Returns
the times at which `_safe_callback` is invoked. -/
def runWatcher (target : String) (debounce : ℚ) :
    List FileEvent → Option ℚ → List ℚ
  | [], pending => pending.toList
  | e :: rest, pending =>
    let s := stepFires pending e.time
    s.1 ++ runWatcher target debounce rest (on_modified target debounce s.2 e)

/-- `_safe_callback` serialisation: the mutex is held for the duration of a
running cycle; a timer that fires while the lock is held returns immediately
(the trigger is dropped — nothing is queued or retried).  Returns the start
times of the cycles that actually execute. -/
def runCallbacks (busyUntil dur : ℚ) : List ℚ → List ℚ
  | [] => []
  | f :: rest =>
    if f < busyUntil then runCallbacks busyUntil dur rest
    else f :: runCallbacks (f + dur) dur rest

/-- The normalised current value `(current - min) / range` Gate 2 computes. -/
def gate2Norm (a : Assertion) (c : ℚ) : ℚ :=
  (c - a.distribution.min) / (a.distribution.max - a.distribution.min)

/-- The claim's density ratio for Gate 2: `density(current) / density(mode)`,
taken as 0 when the density at the mode is 0 (the densities are the Beta
density at the normalised points, with the moment-matched shape
parameters). -/
def gate2ClaimRatio (betaPdf : ℚ → ℚ → ℚ → ℚ) (a : Assertion) (c : ℚ) : ℚ :=
  let range := a.distribution.max - a.distribution.min
  let alpha := 1 + 4 * (a.distribution.mode - a.distribution.min) / range
  let beta_param := 1 + 4 * (a.distribution.max - a.distribution.mode) / range
  let dmode := betaPdf ((a.distribution.mode - a.distribution.min) / range)
    alpha beta_param
  let dcur := betaPdf ((c - a.distribution.min) / range) alpha beta_param
  if dmode = 0 then 0 else dcur / dmode

/-! ## Concrete instances used by witnesses and counterexamples -/

/-- A non-degenerate unit-range distribution. -/
def pertUnit : PertDistribution := ⟨0, 1/2, 1⟩

/-- A non-degenerate distribution with support `[2, 3]`, disjoint from
`pertUnit`'s. -/
def pertShift : PertDistribution := ⟨2, 5/2, 3⟩

/-- A degenerate (point-mass) distribution at 5. -/
def pointMass5 : PertDistribution := ⟨5, 5, 5⟩

/-- A concrete stand-in for `scipy.stats.beta.pdf`: the constant density 1. -/
def onePdf : ℚ → ℚ → ℚ → ℚ := fun _ _ _ => 1

/-- A concrete stand-in for `scipy.integrate.quad`: the zero functional. -/
def zeroIntegral : (ℚ → ℚ) → ℚ → ℚ → ℚ := fun _ _ _ => 0

/-- A concrete relevant file event at time 0. -/
def eventA : FileEvent := ⟨0, "model.xlsx", false, false, false⟩

/-- A concrete relevant file event at time 1/2, inside `eventA`'s debounce
window for the default 0.9s quiet period. -/
def eventB : FileEvent := ⟨1/2, "model.xlsx", false, false, false⟩

/-- A binding with no stored formula fingerprint. -/
def bindingNone : DataBinding := ⟨"B2", none, none⟩

/-- A concrete assertion over `pertUnit`, freshly updated at epoch 0. -/
def assertA : Assertion :=
  ⟨"a1", "Revenue", bindingNone, "CFO", ⟨0, none⟩, 30, none, pertUnit⟩

/-- A concrete assertion over `pertShift`, freshly updated at epoch 0. -/
def assertB : Assertion :=
  ⟨"a2", "Cost", bindingNone, "COO", ⟨0, none⟩, 30, none, pertShift⟩

/-- A one-assertion manifest with no conflict pairs, default thresholds. -/
def manifest1 : DREManifest :=
  { project_id := "p", target_file := "model.xlsx",
    assertions := [assertA], conflict_pairs := [] }

/-- A two-assertion manifest whose only conflict pair relates the two
assertions with disjoint distributions. -/
def manifest2 : DREManifest :=
  { project_id := "p", target_file := "model.xlsx",
    assertions := [assertA, assertB], conflict_pairs := [("a1", "a2")] }

/-- Ingested cell data placing each assertion's value at its mode. -/
def dataAtModes : String → CellData := fun i =>
  if i == "a2" then ⟨some (5/2), none⟩ else ⟨some (1/2), none⟩

/-- The freshly constructed monitor state. -/
def monitorInit : MonitorState := ⟨none, 0, 0, .IDLE, [], []⟩

/-- The register-bypass check "the id is present in the latest report and not
currently HALTed on any (per-assertion) gate", as a decidable computation on
the report. -/
def reportEntryNotHalted (report : List AssertionReport)
    (assertion_id : String) : Bool :=
  match report.find? (fun e => e.id == assertion_id) with
  | some e => !(rawHalt e)
  | none => false

/-! ## Claim theorems -/

set_option maxHeartbeats 1000000

/-- C8: Gate 1 (freshness) returns HALT iff `days_since_update > sla_days` and
PASS otherwise, where `days_since_update` is the floor in whole days of
`now - last_updated` (characterised by the two inequalities below), and a
naive `last_updated` timestamp is treated as UTC before subtracting. -/
theorem c8_gate1_freshness (now : ℤ) (a : Assertion) :
    ((gate_1_freshness now a).status = .HALT ↔
      a.sla_days < (gate_1_freshness now a).days_since_update) ∧
    ((gate_1_freshness now a).status = .PASS ↔
      (gate_1_freshness now a).days_since_update ≤ a.sla_days) ∧
    (gate_1_freshness now a).days_since_update * 86400 ≤
      now - tsUtcSeconds a.last_updated ∧
    now - tsUtcSeconds a.last_updated <
      ((gate_1_freshness now a).days_since_update + 1) * 86400 ∧
    (a.last_updated.tzOffset = none →
      tsUtcSeconds a.last_updated = a.last_updated.wall) := by
  have hfd : (now - tsUtcSeconds a.last_updated).fdiv 86400 =
      (now - tsUtcSeconds a.last_updated) / 86400 :=
    Int.fdiv_eq_ediv _ (by norm_num)
  refine ⟨?_, ?_, ?_, ?_, ?_⟩
  · simp only [gate_1_freshness]
    split_ifs with h
    · simpa using h
    · simpa using h
  · simp only [gate_1_freshness]
    split_ifs with h
    · simp only [gt_iff_lt] at h
      constructor
      · intro hc; exact absurd hc (by simp)
      · intro hc; omega
    · simp only [gt_iff_lt, not_lt] at h
      simpa using h
  · simp only [gate_1_freshness, hfd]
    omega
  · simp only [gate_1_freshness, hfd]
    omega
  · intro hnone
    simp [tsUtcSeconds, hnone]

/-- C3: when pulling current cell data raises (`ingest = none`), the cycle
aborts with an ERROR cycle status; `total_checks`, `halt_count`,
`last_check`, the per-assertion report and the bypass-record map keep their
previous values, and no audit event is emitted. -/
theorem c3_ingestion_error (betaPdf : ℚ → ℚ → ℚ → ℚ)
    (integral : (ℚ → ℚ) → ℚ → ℚ → ℚ) (m : DREManifest) (now : ℤ)
    (st : MonitorState) :
    (run_governance_cycle betaPdf integral m now none st).1.last_status = .ERROR ∧
    (run_governance_cycle betaPdf integral m now none st).1.total_checks =
      st.total_checks ∧
    (run_governance_cycle betaPdf integral m now none st).1.halt_count =
      st.halt_count ∧
    (run_governance_cycle betaPdf integral m now none st).1.last_check =
      st.last_check ∧
    (run_governance_cycle betaPdf integral m now none st).1.current_assertions =
      st.current_assertions ∧
    (run_governance_cycle betaPdf integral m now none st).1.active_bypasses =
      st.active_bypasses ∧
    (run_governance_cycle betaPdf integral m now none st).2 = [] := by
  simp [run_governance_cycle]

/-- The clip into `[0, 1]` does what its name says. -/
theorem clip01_mem (q : ℚ) : 0 ≤ clip01 q ∧ clip01 q ≤ 1 :=
  ⟨le_max_left 0 _, max_le (by norm_num) (min_le_left 1 q)⟩

/-- Reduction of `calculate_overlap` when both distributions are point
masses. -/
theorem calculate_overlap_pp (integral : (ℚ → ℚ) → ℚ → ℚ → ℚ)
    (betaPdf : ℚ → ℚ → ℚ → ℚ) (p1 p2 : PertDistribution)
    (h1 : p1.max - p1.min = 0) (h2 : p2.max - p2.min = 0) :
    calculate_overlap integral betaPdf p1 p2 =
      if p1.min = p2.min then 1 else 0 := by
  simp [calculate_overlap, pert_to_beta, h1, h2]

/-- Reduction of `calculate_overlap` when exactly the first distribution is a
point mass. -/
theorem calculate_overlap_point_left (integral : (ℚ → ℚ) → ℚ → ℚ → ℚ)
    (betaPdf : ℚ → ℚ → ℚ → ℚ) (p1 p2 : PertDistribution)
    (h1 : p1.max - p1.min = 0) (h2 : p2.max - p2.min ≠ 0) :
    calculate_overlap integral betaPdf p1 p2 = 1/100 := by
  simp [calculate_overlap, pert_to_beta, h1, h2]

/-- Reduction of `calculate_overlap` when exactly the second distribution is a
point mass. -/
theorem calculate_overlap_point_right (integral : (ℚ → ℚ) → ℚ → ℚ → ℚ)
    (betaPdf : ℚ → ℚ → ℚ → ℚ) (p1 p2 : PertDistribution)
    (h1 : p1.max - p1.min ≠ 0) (h2 : p2.max - p2.min = 0) :
    calculate_overlap integral betaPdf p1 p2 = 1/100 := by
  simp [calculate_overlap, pert_to_beta, h1, h2]

/-- Reduction of `calculate_overlap` when neither distribution is a point
mass. -/
theorem calculate_overlap_nondegen (integral : (ℚ → ℚ) → ℚ → ℚ → ℚ)
    (betaPdf : ℚ → ℚ → ℚ → ℚ) (p1 p2 : PertDistribution)
    (h1 : p1.max - p1.min ≠ 0) (h2 : p2.max - p2.min ≠ 0) :
    calculate_overlap integral betaPdf p1 p2 =
      if max p1.min p2.min ≥
          min (p1.min + (p1.max - p1.min)) (p2.min + (p2.max - p2.min)) then 0
      else
        clip01 (integral
          (fun x =>
            min (betaPdf ((x - p1.min) / (p1.max - p1.min))
                  (1 + 4 * (p1.mode - p1.min) / (p1.max - p1.min))
                  (1 + 4 * (p1.max - p1.mode) / (p1.max - p1.min)) /
                (p1.max - p1.min))
              (betaPdf ((x - p2.min) / (p2.max - p2.min))
                  (1 + 4 * (p2.mode - p2.min) / (p2.max - p2.min))
                  (1 + 4 * (p2.max - p2.mode) / (p2.max - p2.min)) /
                (p2.max - p2.min)))
          (max p1.min p2.min)
          (min (p1.min + (p1.max - p1.min)) (p2.min + (p2.max - p2.min)))) := by
  simp [calculate_overlap, pert_to_beta, h1, h2]

/-- Reduction of `gate_2_stability` on a present value over a non-degenerate
distribution. -/
theorem gate_2_stability_nondegen (threshold : ℚ) (betaPdf : ℚ → ℚ → ℚ → ℚ)
    (a : Assertion) (c : ℚ)
    (hne : a.distribution.max - a.distribution.min ≠ 0) :
    gate_2_stability threshold betaPdf a (some c) =
      if gate2Norm a c < 0 ∨ gate2Norm a c > 1 then
        { status := .HALT, pdf_probability := some 0 }
      else
        { status :=
            if (if betaPdf ((a.distribution.mode - a.distribution.min) /
                    (a.distribution.max - a.distribution.min))
                  (1 + 4 * (a.distribution.mode - a.distribution.min) /
                    (a.distribution.max - a.distribution.min))
                  (1 + 4 * (a.distribution.max - a.distribution.mode) /
                    (a.distribution.max - a.distribution.min)) > 0 then
                betaPdf (gate2Norm a c)
                  (1 + 4 * (a.distribution.mode - a.distribution.min) /
                    (a.distribution.max - a.distribution.min))
                  (1 + 4 * (a.distribution.max - a.distribution.mode) /
                    (a.distribution.max - a.distribution.min)) /
                betaPdf ((a.distribution.mode - a.distribution.min) /
                    (a.distribution.max - a.distribution.min))
                  (1 + 4 * (a.distribution.mode - a.distribution.min) /
                    (a.distribution.max - a.distribution.min))
                  (1 + 4 * (a.distribution.max - a.distribution.mode) /
                    (a.distribution.max - a.distribution.min))
              else 0) ≥ threshold
            then .PASS else .HALT
          pdf_probability := some (betaPdf (gate2Norm a c)
            (1 + 4 * (a.distribution.mode - a.distribution.min) /
              (a.distribution.max - a.distribution.min))
            (1 + 4 * (a.distribution.max - a.distribution.mode) /
              (a.distribution.max - a.distribution.min)))
          pdf_ratio_to_mode := some
            (if betaPdf ((a.distribution.mode - a.distribution.min) /
                  (a.distribution.max - a.distribution.min))
                (1 + 4 * (a.distribution.mode - a.distribution.min) /
                  (a.distribution.max - a.distribution.min))
                (1 + 4 * (a.distribution.max - a.distribution.mode) /
                  (a.distribution.max - a.distribution.min)) > 0 then
              betaPdf (gate2Norm a c)
                (1 + 4 * (a.distribution.mode - a.distribution.min) /
                  (a.distribution.max - a.distribution.min))
                (1 + 4 * (a.distribution.max - a.distribution.mode) /
                  (a.distribution.max - a.distribution.min)) /
              betaPdf ((a.distribution.mode - a.distribution.min) /
                  (a.distribution.max - a.distribution.min))
                (1 + 4 * (a.distribution.mode - a.distribution.min) /
                  (a.distribution.max - a.distribution.min))
                (1 + 4 * (a.distribution.max - a.distribution.mode) /
                  (a.distribution.max - a.distribution.min))
              else 0) } := by
  simp [gate_2_stability, pert_to_beta, gate2Norm, hne]

/-- The code's conditional ratio (`pdf_at_mode > 0` guard) agrees with the
claim's (`density(mode) = 0` guard) whenever the density function is
nonnegative, as a probability density is. -/
theorem code_ratio_eq_claim_ratio (dcur dmode : ℚ) (h : 0 ≤ dmode) :
    (if dmode > 0 then dcur / dmode else 0) =
      (if dmode = 0 then 0 else dcur / dmode) := by
  rcases eq_or_lt_of_le h with h0 | h0
  · simp [← h0]
  · simp [h0, h0.ne']

/-- C5: Gate 3 (convergence) returns PASS iff the overlap integral is at
least `overlap_integral_cutoff` (the schema default of that field is 0.05);
when it returns HALT, its severity is CRITICAL if the overlap is below 0.01
and MAJOR otherwise. -/
theorem c5_gate3_convergence (cutoff : ℚ) (integral : (ℚ → ℚ) → ℚ → ℚ → ℚ)
    (betaPdf : ℚ → ℚ → ℚ → ℚ) (a1 a2 : Assertion) :
    ((gate_3_convergence cutoff integral betaPdf a1 a2).status = .PASS ↔
      cutoff ≤ calculate_overlap integral betaPdf a1.distribution a2.distribution) ∧
    ((gate_3_convergence cutoff integral betaPdf a1 a2).status = .HALT →
      (gate_3_convergence cutoff integral betaPdf a1 a2).severity =
        (if calculate_overlap integral betaPdf a1.distribution a2.distribution <
            1/100 then Severity.CRITICAL else Severity.MAJOR)) := by
  constructor
  · simp only [gate_3_convergence, ge_iff_le]
    split_ifs with h <;> simp [h]
  · simp only [gate_3_convergence, ge_iff_le]
    split_ifs with h h2 <;> simp_all

/-- C5 witness: on the disjoint concrete pair `assertA`/`assertB` the gate
HALTs and the severity equation given by `c5_gate3_convergence` evaluates to
CRITICAL. -/
theorem c5_witness :
    (gate_3_convergence (1/20) zeroIntegral onePdf assertA assertB).status =
      .HALT ∧
    (gate_3_convergence (1/20) zeroIntegral onePdf assertA assertB).severity =
      (if calculate_overlap zeroIntegral onePdf assertA.distribution
          assertB.distribution < 1/100 then Severity.CRITICAL
        else Severity.MAJOR) :=
  ⟨by norm_num [gate_3_convergence, calculate_overlap, pert_to_beta, assertA,
      assertB, pertUnit, pertShift],
    (c5_gate3_convergence (1/20) zeroIntegral onePdf assertA assertB).2
      (by norm_num [gate_3_convergence, calculate_overlap, pert_to_beta,
        assertA, assertB, pertUnit, pertShift])⟩

/-- C6 counterexample: `pointMass5` is a point mass whose support `{5}` is
disjoint from `pertUnit`'s support `[0, 1]`, yet `calculate_overlap` returns
the one-point-mass constant 0.01, not the 0.0 the claim requires for
non-intersecting supports (the degenerate branches precede the
support-intersection test). -/
theorem c6_counterexample :
    (pertUnit.max < pointMass5.min ∨ pointMass5.max < pertUnit.min) ∧
    calculate_overlap zeroIntegral onePdf pointMass5 pertUnit = 1/100 ∧
    (1/100 : ℚ) ≠ 0 := by
  refine ⟨Or.inl (by norm_num [pertUnit, pointMass5]), ?_, by norm_num⟩
  exact calculate_overlap_point_left zeroIntegral onePdf pointMass5 pertUnit
    (by norm_num [pointMass5]) (by norm_num [pertUnit])

/-- C6 (amended): `calculate_overlap` always returns a value in `[0, 1]`;
it returns 0.0 when the supports do not intersect **and neither distribution
is a point mass** (the degenerate-pair rules take precedence over the
disjoint-support rule); it returns 1.0 when both are point masses at the same
location, 0.0 when both are point masses at different locations, and exactly
0.01 when exactly one of the two is a point mass. -/
theorem c6_amended (integral : (ℚ → ℚ) → ℚ → ℚ → ℚ)
    (betaPdf : ℚ → ℚ → ℚ → ℚ) (p1 p2 : PertDistribution) :
    (0 ≤ calculate_overlap integral betaPdf p1 p2 ∧
      calculate_overlap integral betaPdf p1 p2 ≤ 1) ∧
    (p1.max - p1.min ≠ 0 → p2.max - p2.min ≠ 0 →
      (p1.max < p2.min ∨ p2.max < p1.min) →
      calculate_overlap integral betaPdf p1 p2 = 0) ∧
    (p1.max - p1.min = 0 → p2.max - p2.min = 0 →
      calculate_overlap integral betaPdf p1 p2 =
        (if p1.min = p2.min then 1 else 0)) ∧
    ((p1.max - p1.min = 0 ∧ p2.max - p2.min ≠ 0) ∨
      (p1.max - p1.min ≠ 0 ∧ p2.max - p2.min = 0) →
      calculate_overlap integral betaPdf p1 p2 = 1/100) := by
  refine ⟨?_, ?_, ?_, ?_⟩
  · by_cases h1 : p1.max - p1.min = 0 <;> by_cases h2 : p2.max - p2.min = 0
    · rw [calculate_overlap_pp integral betaPdf p1 p2 h1 h2]
      split_ifs <;> norm_num
    · rw [calculate_overlap_point_left integral betaPdf p1 p2 h1 h2]
      norm_num
    · rw [calculate_overlap_point_right integral betaPdf p1 p2 h1 h2]
      norm_num
    · rw [calculate_overlap_nondegen integral betaPdf p1 p2 h1 h2]
      split_ifs with hc
      · norm_num
      · exact clip01_mem _
  · intro h1 h2 hd
    rw [calculate_overlap_nondegen integral betaPdf p1 p2 h1 h2]
    have hmin1 : min (p1.min + (p1.max - p1.min)) (p2.min + (p2.max - p2.min)) ≤
        p1.min + (p1.max - p1.min) := min_le_left _ _
    have hmin2 : min (p1.min + (p1.max - p1.min)) (p2.min + (p2.max - p2.min)) ≤
        p2.min + (p2.max - p2.min) := min_le_right _ _
    have hmax1 : p1.min ≤ max p1.min p2.min := le_max_left _ _
    have hmax2 : p2.min ≤ max p1.min p2.min := le_max_right _ _
    rcases hd with hd | hd
    · rw [if_pos (by linarith : max p1.min p2.min ≥
        min (p1.min + (p1.max - p1.min)) (p2.min + (p2.max - p2.min)))]
    · rw [if_pos (by linarith : max p1.min p2.min ≥
        min (p1.min + (p1.max - p1.min)) (p2.min + (p2.max - p2.min)))]
  · intro h1 h2
    exact calculate_overlap_pp integral betaPdf p1 p2 h1 h2
  · intro hd
    rcases hd with ⟨h1, h2⟩ | ⟨h1, h2⟩
    · exact calculate_overlap_point_left integral betaPdf p1 p2 h1 h2
    · exact calculate_overlap_point_right integral betaPdf p1 p2 h1 h2

/-- C6 witness: the amended disjoint-support rule applied to the concrete
non-degenerate pair `pertUnit`/`pertShift`. -/
theorem c6_witness :
    ((pertUnit.max - pertUnit.min ≠ 0) ∧ (pertShift.max - pertShift.min ≠ 0) ∧
      (pertUnit.max < pertShift.min ∨ pertShift.max < pertUnit.min)) ∧
    calculate_overlap zeroIntegral onePdf pertUnit pertShift = 0 :=
  ⟨⟨by norm_num [pertUnit], by norm_num [pertShift],
      by norm_num [pertUnit, pertShift]⟩,
    (c6_amended zeroIntegral onePdf pertUnit pertShift).2.1
      (by norm_num [pertUnit]) (by norm_num [pertShift])
      (by norm_num [pertUnit, pertShift])⟩

/-- C4: for Gate 2 (stability) on an assertion with a non-degenerate
distribution (`range > 0`) and a present current value: the result is HALT
with `pdf_probability = 0` when the normalised value lies outside `[0, 1]`;
otherwise the result is PASS iff `density(current) / density(mode) ≥
stability_threshold` (the ratio taken as 0 when the density at the mode is 0,
see `gate2ClaimRatio`), else HALT.  With no current value the result is SKIP.
The density function is abstract but assumed nonnegative, as a probability
density is. -/
theorem c4_gate2_stability (threshold : ℚ) (betaPdf : ℚ → ℚ → ℚ → ℚ)
    (a : Assertion) (c : ℚ)
    (hrange : 0 < a.distribution.max - a.distribution.min)
    (hpdf : ∀ x p q, 0 ≤ betaPdf x p q) :
    ((gate2Norm a c < 0 ∨ 1 < gate2Norm a c) →
      (gate_2_stability threshold betaPdf a (some c)).status = .HALT ∧
      (gate_2_stability threshold betaPdf a (some c)).pdf_probability =
        some 0) ∧
    (0 ≤ gate2Norm a c → gate2Norm a c ≤ 1 →
      (((gate_2_stability threshold betaPdf a (some c)).status = .PASS ↔
          threshold ≤ gate2ClaimRatio betaPdf a c) ∧
        ((gate_2_stability threshold betaPdf a (some c)).status = .HALT ↔
          gate2ClaimRatio betaPdf a c < threshold))) ∧
    (gate_2_stability threshold betaPdf a none).status = .SKIP := by
  have hne : a.distribution.max - a.distribution.min ≠ 0 := hrange.ne'
  rw [gate_2_stability_nondegen threshold betaPdf a c hne]
  have hcode := code_ratio_eq_claim_ratio
    (betaPdf (gate2Norm a c)
      (1 + 4 * (a.distribution.mode - a.distribution.min) /
        (a.distribution.max - a.distribution.min))
      (1 + 4 * (a.distribution.max - a.distribution.mode) /
        (a.distribution.max - a.distribution.min)))
    (betaPdf ((a.distribution.mode - a.distribution.min) /
        (a.distribution.max - a.distribution.min))
      (1 + 4 * (a.distribution.mode - a.distribution.min) /
        (a.distribution.max - a.distribution.min))
      (1 + 4 * (a.distribution.max - a.distribution.mode) /
        (a.distribution.max - a.distribution.min)))
    (hpdf _ _ _)
  have hclaim : gate2ClaimRatio betaPdf a c =
      (if betaPdf ((a.distribution.mode - a.distribution.min) /
            (a.distribution.max - a.distribution.min))
          (1 + 4 * (a.distribution.mode - a.distribution.min) /
            (a.distribution.max - a.distribution.min))
          (1 + 4 * (a.distribution.max - a.distribution.mode) /
            (a.distribution.max - a.distribution.min)) = 0 then 0
        else betaPdf (gate2Norm a c)
            (1 + 4 * (a.distribution.mode - a.distribution.min) /
              (a.distribution.max - a.distribution.min))
            (1 + 4 * (a.distribution.max - a.distribution.mode) /
              (a.distribution.max - a.distribution.min)) /
          betaPdf ((a.distribution.mode - a.distribution.min) /
              (a.distribution.max - a.distribution.min))
            (1 + 4 * (a.distribution.mode - a.distribution.min) /
              (a.distribution.max - a.distribution.min))
            (1 + 4 * (a.distribution.max - a.distribution.mode) /
              (a.distribution.max - a.distribution.min))) := by
    simp [gate2ClaimRatio, gate2Norm]
  refine ⟨?_, ?_, ?_⟩
  · intro h
    rw [if_pos h]
    exact ⟨rfl, rfl⟩
  · intro h0 h1
    have hcond : ¬(gate2Norm a c < 0 ∨ gate2Norm a c > 1) := by
      push_neg
      exact ⟨h0, h1⟩
    rw [if_neg hcond]
    dsimp only
    rw [hcode, ← hclaim]
    split_ifs with hst
    · refine ⟨⟨fun _ => hst, fun _ => rfl⟩, ⟨fun h => ?_, fun h => ?_⟩⟩
      · exact absurd h (by simp)
      · exact absurd h (not_lt.mpr hst)
    · refine ⟨⟨fun h => ?_, fun h => ?_⟩, ⟨fun _ => not_le.mp hst, fun _ => rfl⟩⟩
      · exact absurd h (by simp)
      · exact absurd h hst
  · rfl

/-- C4 witness: on `assertA` (distribution `{0, 1/2, 1}`) with the constant
density 1 and current value 1/2, the hypotheses hold and Gate 2 PASSes at the
default threshold 0.15 (the claim ratio evaluates to 1). -/
theorem c4_witness :
    (0 < assertA.distribution.max - assertA.distribution.min ∧
      ∀ x p q, (0 : ℚ) ≤ onePdf x p q) ∧
    (gate_2_stability (3/20) onePdf assertA (some (1/2))).status = .PASS :=
  ⟨⟨by norm_num [assertA, pertUnit], fun _ _ _ => zero_le_one⟩,
    (((c4_gate2_stability (3/20) onePdf assertA (1/2)
          (by norm_num [assertA, pertUnit])
          (fun _ _ _ => zero_le_one)).2.1
        (by norm_num [gate2Norm, assertA, pertUnit])
        (by norm_num [gate2Norm, assertA, pertUnit])).1).mpr
      (by norm_num [gate2ClaimRatio, onePdf, assertA, pertUnit])⟩

/-- C7: `calculate_overlap` is symmetric in its two distributions.  The
numerical quadrature is modelled as a functional of the integrand and the
bounds; swapping the arguments produces the identical integrand
(`min` of the two densities is commutative) over identical bounds. -/
theorem c7_overlap_symm (integral : (ℚ → ℚ) → ℚ → ℚ → ℚ)
    (betaPdf : ℚ → ℚ → ℚ → ℚ) (p1 p2 : PertDistribution) :
    calculate_overlap integral betaPdf p1 p2 =
      calculate_overlap integral betaPdf p2 p1 := by
  by_cases h1 : p1.max - p1.min = 0 <;> by_cases h2 : p2.max - p2.min = 0
  · rw [calculate_overlap_pp integral betaPdf p1 p2 h1 h2,
      calculate_overlap_pp integral betaPdf p2 p1 h2 h1]
    by_cases hl : p1.min = p2.min
    · simp [hl]
    · have hl' : ¬p2.min = p1.min := fun h => hl h.symm
      simp [hl, hl']
  · rw [calculate_overlap_point_left integral betaPdf p1 p2 h1 h2,
      calculate_overlap_point_right integral betaPdf p2 p1 h2 h1]
  · rw [calculate_overlap_point_right integral betaPdf p1 p2 h1 h2,
      calculate_overlap_point_left integral betaPdf p2 p1 h2 h1]
  · rw [calculate_overlap_nondegen integral betaPdf p1 p2 h1 h2,
      calculate_overlap_nondegen integral betaPdf p2 p1 h2 h1]
    rw [max_comm p2.min p1.min,
      min_comm (p2.min + (p2.max - p2.min)) (p1.min + (p1.max - p1.min))]
    by_cases hc : max p1.min p2.min ≥
        min (p1.min + (p1.max - p1.min)) (p2.min + (p2.max - p2.min))
    · rw [if_pos hc, if_pos hc]
    · rw [if_neg hc, if_neg hc]
      have hfun :
          (fun x =>
            min (betaPdf ((x - p1.min) / (p1.max - p1.min))
                  (1 + 4 * (p1.mode - p1.min) / (p1.max - p1.min))
                  (1 + 4 * (p1.max - p1.mode) / (p1.max - p1.min)) /
                (p1.max - p1.min))
              (betaPdf ((x - p2.min) / (p2.max - p2.min))
                  (1 + 4 * (p2.mode - p2.min) / (p2.max - p2.min))
                  (1 + 4 * (p2.max - p2.mode) / (p2.max - p2.min)) /
                (p2.max - p2.min))) =
          (fun x =>
            min (betaPdf ((x - p2.min) / (p2.max - p2.min))
                  (1 + 4 * (p2.mode - p2.min) / (p2.max - p2.min))
                  (1 + 4 * (p2.max - p2.mode) / (p2.max - p2.min)) /
                (p2.max - p2.min))
              (betaPdf ((x - p1.min) / (p1.max - p1.min))
                  (1 + 4 * (p1.mode - p1.min) / (p1.max - p1.min))
                  (1 + 4 * (p1.max - p1.mode) / (p1.max - p1.min)) /
                (p1.max - p1.min))) :=
        funext fun x => min_comm _ _
      rw [hfun]

/-- C10: under the deterministic event-trace semantics of the watcher, a
trigger that fires while a cycle is still running is dropped — it produces no
execution and nothing is queued or retried (`runCallbacks`) — and two
relevant file-change events for the target arriving within one debounce
window produce exactly one callback invocation, at the second event's time
plus the quiet period (`runWatcher`). -/
theorem c10_trigger_pipeline (target : String) (d dur : ℚ) (e1 e2 : FileEvent)
    (b f1 f2 : ℚ)
    (hd1 : e1.is_directory = false) (ht1 : e1.hasTempMarker = false)
    (ha1 : e1.hasAuditMarker = false) (hp1 : e1.src_path = target)
    (hd2 : e2.is_directory = false) (ht2 : e2.hasTempMarker = false)
    (ha2 : e2.hasAuditMarker = false) (hp2 : e2.src_path = target)
    (hwin : e2.time < e1.time + d)
    (hidle : b ≤ f1) (hcontend : f2 < f1 + dur) :
    runWatcher target d [e1, e2] none = [e2.time + d] ∧
    runCallbacks b dur [f1, f2] = [f1] := by
  constructor
  · simp [runWatcher, stepFires, on_modified, hd1, ht1, ha1, hp1, hd2, ht2,
      ha2, hp2, (not_le.mpr hwin : ¬(e1.time + d ≤ e2.time))]
  · simp [runCallbacks, (not_lt.mpr hidle : ¬(f1 < b)), hcontend]

/-- C10 witness: two concrete events on the watched file half a second apart
with a 0.9s debounce yield one invocation; two fires half a second apart with
a one-second cycle yield one execution. -/
theorem c10_witness :
    (eventA.src_path = "model.xlsx" ∧ eventB.src_path = "model.xlsx" ∧
      eventB.time < eventA.time + 9/10 ∧ (0 : ℚ) ≤ 0 ∧
      (1/2 : ℚ) < 0 + 1) ∧
    runWatcher "model.xlsx" (9/10) [eventA, eventB] none = [eventB.time + 9/10] ∧
    runCallbacks 0 1 [0, 1/2] = [0] :=
  ⟨⟨rfl, rfl, by norm_num [eventA, eventB], le_refl 0, by norm_num⟩,
    c10_trigger_pipeline "model.xlsx" (9/10) 1 eventA eventB 0 0 (1/2)
      rfl rfl rfl rfl rfl rfl rfl rfl
      (by norm_num [eventA, eventB]) (le_refl 0) (by norm_num)⟩

/-- A rejection returned by `validateBypassId` names the id it was asked to
validate. -/
theorem validateBypassId_aid (report : List AssertionReport) (i : String)
    (e : BypassError) (h : validateBypassId report i = some e) : e.aid = i := by
  unfold validateBypassId at h
  cases hf : report.find? (fun x => x.id == i) with
  | none =>
    rw [hf] at h
    cases h
    rfl
  | some x =>
    rw [hf] at h
    simp only [] at h
    split_ifs at h
    cases h
    rfl

/-- After the write loop, every id of the batch maps to the new record. -/
theorem lookup_writeBypasses (ids : List String) (r : BypassRecord)
    (led : List (String × BypassRecord)) (i : String) (h : i ∈ ids) :
    (writeBypasses ids r led).lookup i = some r := by
  induction ids with
  | nil => cases h
  | cons j tl ih =>
    simp only [writeBypasses, List.map_cons, List.cons_append, List.lookup_cons]
    by_cases hij : i = j
    · simp [hij]
    · have hbeq : (i == j) = false := by simp [hij]
      rw [hbeq]
      rcases List.mem_cons.mp h with h' | h'
      · exact absurd h' hij
      · exact ih h'

/-- A governance cycle never mutates the bypass ledger. -/
theorem run_cycle_preserves_bypasses (betaPdf : ℚ → ℚ → ℚ → ℚ)
    (integral : (ℚ → ℚ) → ℚ → ℚ → ℚ) (m : DREManifest) (now : ℤ)
    (ingest : Option (String → CellData)) (st : MonitorState) :
    (run_governance_cycle betaPdf integral m now ingest st).1.active_bypasses =
      st.active_bypasses := by
  cases ingest <;> simp [run_governance_cycle]

/-- C2: `register_bypass` over a batch is all-or-nothing.  If some id of the
batch fails validation (absent from the latest report, or not showing HALT on
any of its gates), the call returns a rejection naming an offending id, the
monitor state — in particular the ledger — is unchanged, and no audit event
is emitted.  If every id validates, the call succeeds and every id of the
batch maps to a fresh record with `expiry = requested_at + expiry_seconds`,
overwriting any previous record. -/
theorem c2_register_bypass (betaPdf : ℚ → ℚ → ℚ → ℚ)
    (integral : (ℚ → ℚ) → ℚ → ℚ → ℚ) (m : DREManifest) (now : ℤ)
    (ingest : Option (String → CellData)) (ids : List String)
    (justification signature signature_hash : String)
    (requested_at expiry_seconds : ℤ) (st : MonitorState) :
    ((∃ i ∈ ids, validateBypassId st.current_assertions i ≠ none) →
      ∃ e, (register_bypass betaPdf integral m now ingest ids justification
          signature signature_hash requested_at expiry_seconds st).2.2 =
          some e ∧
        e.aid ∈ ids ∧
        validateBypassId st.current_assertions e.aid = some e ∧
        (register_bypass betaPdf integral m now ingest ids justification
          signature signature_hash requested_at expiry_seconds st).1 = st ∧
        (register_bypass betaPdf integral m now ingest ids justification
          signature signature_hash requested_at expiry_seconds st).2.1 = []) ∧
    ((∀ i ∈ ids, validateBypassId st.current_assertions i = none) →
      (register_bypass betaPdf integral m now ingest ids justification
        signature signature_hash requested_at expiry_seconds st).2.2 = none ∧
      ∀ i ∈ ids,
        (register_bypass betaPdf integral m now ingest ids justification
          signature signature_hash requested_at expiry_seconds st).1.active_bypasses.lookup
          i =
        some ⟨justification, signature, signature_hash, requested_at,
          requested_at + expiry_seconds⟩) := by
  constructor
  · rintro ⟨i, hi, hne⟩
    cases hfs : ids.findSome? (validateBypassId st.current_assertions) with
    | none => exact absurd (List.findSome?_eq_none_iff.mp hfs i hi) hne
    | some e =>
      obtain ⟨x, hx, hfx⟩ := List.exists_of_findSome?_eq_some hfs
      have haid : e.aid = x := validateBypassId_aid _ _ _ hfx
      refine ⟨e, ?_, ?_, ?_, ?_, ?_⟩
      · simp [register_bypass, hfs]
      · rw [haid]; exact hx
      · rw [haid]; exact hfx
      · simp [register_bypass, hfs]
      · simp [register_bypass, hfs]
  · intro hall
    have hfs : ids.findSome? (validateBypassId st.current_assertions) = none :=
      List.findSome?_eq_none_iff.mpr hall
    constructor
    · simp [register_bypass, hfs]
    · intro i hi
      simp only [register_bypass, hfs]
      rw [run_cycle_preserves_bypasses]
      exact lookup_writeBypasses ids _ st.active_bypasses i hi

/-- C2 witness: the rejection case of `c2_register_bypass` at a concrete
input — on a fresh monitor with an empty report, bypassing the unknown id
"a1" is rejected, names "a1", and leaves the state untouched with no audit
events. -/
theorem c2_witness :
    (∃ i ∈ ["a1"],
      validateBypassId monitorInit.current_assertions i ≠ none) ∧
    (∃ e, (register_bypass onePdf zeroIntegral manifest1 0 (some dataAtModes)
        ["a1"] "maintenance" "sig" "hash" 0 3600 monitorInit).2.2 = some e ∧
      e.aid ∈ ["a1"] ∧
      validateBypassId monitorInit.current_assertions e.aid = some e ∧
      (register_bypass onePdf zeroIntegral manifest1 0 (some dataAtModes)
        ["a1"] "maintenance" "sig" "hash" 0 3600 monitorInit).1 =
        monitorInit ∧
      (register_bypass onePdf zeroIntegral manifest1 0 (some dataAtModes)
        ["a1"] "maintenance" "sig" "hash" 0 3600 monitorInit).2.1 = []) :=
  ⟨⟨"a1", by simp, by simp [validateBypassId, monitorInit]⟩,
    (c2_register_bypass onePdf zeroIntegral manifest1 0 (some dataAtModes)
        ["a1"] "maintenance" "sig" "hash" 0 3600 monitorInit).1
      ⟨"a1", by simp, by simp [validateBypassId, monitorInit]⟩⟩

/-- C8 witness: `c8_gate1_freshness` instantiated 31 days (2678400 seconds)
after `assertA`'s naive last update, where Gate 1 HALTs against the 30-day
SLA. -/
theorem c8_witness :
    ((gate_1_freshness 2678400 assertA).status = .HALT ↔
      assertA.sla_days < (gate_1_freshness 2678400 assertA).days_since_update) ∧
    ((gate_1_freshness 2678400 assertA).status = .PASS ↔
      (gate_1_freshness 2678400 assertA).days_since_update ≤
        assertA.sla_days) ∧
    (gate_1_freshness 2678400 assertA).days_since_update * 86400 ≤
      2678400 - tsUtcSeconds assertA.last_updated ∧
    2678400 - tsUtcSeconds assertA.last_updated <
      ((gate_1_freshness 2678400 assertA).days_since_update + 1) * 86400 ∧
    (assertA.last_updated.tzOffset = none →
      tsUtcSeconds assertA.last_updated = assertA.last_updated.wall) :=
  c8_gate1_freshness 2678400 assertA

/-- `global_halt` of a pass is the disjunction of the two accumulation
loops. -/
theorem cyclePass_global_halt (betaPdf : ℚ → ℚ → ℚ → ℚ)
    (integral : (ℚ → ℚ) → ℚ → ℚ → ℚ) (m : DREManifest) (now : ℤ)
    (data : String → CellData) (ledger : List (String × BypassRecord)) :
    (cyclePass betaPdf integral m now data ledger).global_halt =
      ((cyclePass betaPdf integral m now data ledger).report.any
          (fun e => rawHalt e && !(isSuppressed ledger now e.id)) ||
        (cyclePass betaPdf integral m now data ledger).conflict_results.any
          (fun t => decide (t.2.2.status = .HALT))) := by
  simp only [cyclePass]

/-- Every Gate 3 result of a pass is labelled with one of the manifest's
configured conflict pairs. -/
theorem conflict_results_mem_pairs (betaPdf : ℚ → ℚ → ℚ → ℚ)
    (integral : (ℚ → ℚ) → ℚ → ℚ → ℚ) (m : DREManifest) (now : ℤ)
    (data : String → CellData) (ledger : List (String × BypassRecord))
    (t : String × String × Gate3Result)
    (ht : t ∈ (cyclePass betaPdf integral m now data ledger).conflict_results) :
    (t.1, t.2.1) ∈ m.conflict_pairs := by
  simp only [cyclePass] at ht
  rw [List.mem_filterMap] at ht
  obtain ⟨p, hp, hfp⟩ := ht
  cases h1 : m.assertions.find? (fun a => a.id == p.1) with
  | none => rw [h1] at hfp; simp at hfp
  | some a1 =>
    cases h2 : m.assertions.find? (fun a => a.id == p.2) with
    | none => rw [h1, h2] at hfp; simp at hfp
    | some a2 =>
      rw [h1, h2] at hfp
      simp only [Option.some.injEq] at hfp
      rw [← hfp]
      exact hp

/-- C1: in an evaluation pass, `global_halt` is true iff at least one
unsuppressed HALT exists among all gate results of the pass — the
per-assertion Gates 1, 2, 4 (suppressed iff a bypass record exists for the
assertion id and `now` is strictly before its expiry) and every configured
conflict pair's Gate 3 result (keyed by the pair's audit id `id1+id2`, under
which no bypass record exists: `register_bypass` only ever writes ids present
in the report, which the hypothesis captures). -/
theorem c1_global_halt (betaPdf : ℚ → ℚ → ℚ → ℚ)
    (integral : (ℚ → ℚ) → ℚ → ℚ → ℚ) (m : DREManifest) (now : ℤ)
    (data : String → CellData) (ledger : List (String × BypassRecord))
    (hpair : ∀ i j, (i, j) ∈ m.conflict_pairs →
      ledger.lookup (pairKey i j) = none) :
    (cyclePass betaPdf integral m now data ledger).global_halt = true ↔
      ((∃ e ∈ (cyclePass betaPdf integral m now data ledger).report,
          (e.gate1.status = .HALT ∨ e.gate2.status = .HALT ∨
            e.gate4.status = .HALT) ∧
          isSuppressed ledger now e.id = false) ∨
        (∃ t ∈ (cyclePass betaPdf integral m now data ledger).conflict_results,
          t.2.2.status = .HALT ∧
          isSuppressed ledger now (pairKey t.1 t.2.1) = false)) := by
  rw [cyclePass_global_halt, Bool.or_eq_true, List.any_eq_true,
    List.any_eq_true]
  constructor
  · rintro (⟨e, he, hfe⟩ | ⟨t, ht, hgt⟩)
    · rw [Bool.and_eq_true] at hfe
      refine Or.inl ⟨e, he, ?_, ?_⟩
      · simpa [rawHalt] using hfe.1
      · simpa using hfe.2
    · refine Or.inr ⟨t, ht, by simpa using hgt, ?_⟩
      have hmem := conflict_results_mem_pairs betaPdf integral m now data
        ledger t ht
      have hlk := hpair t.1 t.2.1 hmem
      simp [isSuppressed, hlk]
  · rintro (⟨e, he, hst, hsup⟩ | ⟨t, ht, hst, _⟩)
    · refine Or.inl ⟨e, he, ?_⟩
      rw [Bool.and_eq_true]
      exact ⟨by simpa [rawHalt] using hst, by simpa using hsup⟩
    · exact Or.inr ⟨t, ht, by simpa using hst⟩

/-- C1 witness: a one-assertion pass 31 days after the last update (SLA 30)
with an empty ledger: the pair hypothesis holds vacuously, the equivalence is
given by `c1_global_halt`, and the pass indeed sets `global_halt`. -/
theorem c1_witness :
    (∀ i j, (i, j) ∈ manifest1.conflict_pairs →
      ([] : List (String × BypassRecord)).lookup (pairKey i j) = none) ∧
    ((cyclePass onePdf zeroIntegral manifest1 2678400 dataAtModes []).global_halt
        = true ↔
      ((∃ e ∈ (cyclePass onePdf zeroIntegral manifest1 2678400 dataAtModes
            []).report,
          (e.gate1.status = .HALT ∨ e.gate2.status = .HALT ∨
            e.gate4.status = .HALT) ∧
          isSuppressed [] 2678400 e.id = false) ∨
        (∃ t ∈ (cyclePass onePdf zeroIntegral manifest1 2678400 dataAtModes
            []).conflict_results,
          t.2.2.status = .HALT ∧
          isSuppressed [] 2678400 (pairKey t.1 t.2.1) = false))) ∧
    (cyclePass onePdf zeroIntegral manifest1 2678400 dataAtModes []).global_halt
      = true := by
  refine ⟨fun i j h => absurd h (by simp [manifest1]), ?_, ?_⟩
  · exact c1_global_halt onePdf zeroIntegral manifest1 2678400 dataAtModes []
      (fun i j h => absurd h (by simp [manifest1]))
  · norm_num [cyclePass, evalAssertion, gate_1_freshness, gate_2_stability,
      gate_4_structure, pert_to_beta, tsUtcSeconds, rawHalt, isSuppressed,
      manifest1, assertA, pertUnit, dataAtModes, bindingNone, onePdf,
      (by decide : ((2678400 : ℤ)).fdiv 86400 = 31)]

/-- C9: a bypass request for an assertion whose only current failing gate is
the pairwise conflict gate is rejected as "not in HALT state":
`register_bypass` inspects only the freshness/stability/alignment statuses of
the latest per-assertion report (`reportEntryNotHalted`), which never records
conflict-gate results, so even when a Gate 3 result involving the id HALTs
(second hypothesis — unused by the rejection, which is the point), the call
errors and leaves the state unchanged. -/
theorem c9_conflict_halt_not_bypassable (betaPdf : ℚ → ℚ → ℚ → ℚ)
    (integral : (ℚ → ℚ) → ℚ → ℚ → ℚ) (m : DREManifest) (now : ℤ)
    (data : String → CellData) (st : MonitorState)
    (assertion_id justification signature signature_hash : String)
    (requested_at expiry_seconds : ℤ)
    (h1 : reportEntryNotHalted
      (run_governance_cycle betaPdf integral m now (some data) st).1.current_assertions
      assertion_id = true)
    (h2 : ∃ t ∈ (cyclePass betaPdf integral m now data
        st.active_bypasses).conflict_results,
      (t.1 = assertion_id ∨ t.2.1 = assertion_id) ∧ t.2.2.status = .HALT) :
    register_bypass betaPdf integral m now (some data) [assertion_id]
        justification signature signature_hash requested_at expiry_seconds
        (run_governance_cycle betaPdf integral m now (some data) st).1 =
      ((run_governance_cycle betaPdf integral m now (some data) st).1, [],
        some (.notHalted assertion_id)) := by
  have hv : validateBypassId
      (run_governance_cycle betaPdf integral m now (some data) st).1.current_assertions
      assertion_id = some (.notHalted assertion_id) := by
    unfold reportEntryNotHalted at h1
    unfold validateBypassId
    cases hf : (run_governance_cycle betaPdf integral m now (some data)
        st).1.current_assertions.find? (fun e => e.id == assertion_id) with
    | none => rw [hf] at h1; simp at h1
    | some e =>
      rw [hf] at h1
      simp only [Bool.not_eq_true'] at h1
      simp [h1]
  simp [register_bypass, List.findSome?_cons, hv]

/-- C9 witness: on the two-assertion manifest with the disjoint conflict pair
`("a1", "a2")`, a cycle at time 0 leaves `a1` with PASS/PASS/SKIP on its own
gates while Gate 3 HALTs; bypassing `a1` is rejected with `notHalted`. -/
theorem c9_witness :
    (reportEntryNotHalted
        (run_governance_cycle onePdf zeroIntegral manifest2 0 (some dataAtModes)
          monitorInit).1.current_assertions "a1" = true ∧
      (∃ t ∈ (cyclePass onePdf zeroIntegral manifest2 0 dataAtModes
          monitorInit.active_bypasses).conflict_results,
        (t.1 = "a1" ∨ t.2.1 = "a1") ∧ t.2.2.status = .HALT)) ∧
    register_bypass onePdf zeroIntegral manifest2 0 (some dataAtModes) ["a1"]
        "maintenance" "sig" "hash" 0 3600
        (run_governance_cycle onePdf zeroIntegral manifest2 0 (some dataAtModes)
          monitorInit).1 =
      ((run_governance_cycle onePdf zeroIntegral manifest2 0 (some dataAtModes)
          monitorInit).1, [], some (.notHalted "a1")) := by
  have hfd : ((0 : ℤ)).fdiv 86400 = 0 := by decide
  have hne : ¬("a1" = "a2") := by decide
  have hne' : ¬("a2" = "a1") := by decide
  have h1 : reportEntryNotHalted
      (run_governance_cycle onePdf zeroIntegral manifest2 0 (some dataAtModes)
        monitorInit).1.current_assertions "a1" = true := by
    norm_num [run_governance_cycle, cyclePass, evalAssertion,
      gate_1_freshness, gate_2_stability, gate_4_structure, gate_3_convergence,
      calculate_overlap, pert_to_beta, tsUtcSeconds, rawHalt, isSuppressed,
      reportEntryNotHalted, manifest2, assertA, assertB, pertUnit, pertShift,
      dataAtModes, bindingNone, onePdf, monitorInit, hfd, hne, hne']
    all_goals decide
  have h2 : ∃ t ∈ (cyclePass onePdf zeroIntegral manifest2 0 dataAtModes
      monitorInit.active_bypasses).conflict_results,
      (t.1 = "a1" ∨ t.2.1 = "a1") ∧ t.2.2.status = .HALT := by
    norm_num [cyclePass, evalAssertion, gate_1_freshness, gate_2_stability,
      gate_4_structure, gate_3_convergence, calculate_overlap, pert_to_beta,
      tsUtcSeconds, rawHalt, isSuppressed, manifest2, assertA, assertB,
      pertUnit, pertShift, dataAtModes, bindingNone, onePdf, monitorInit,
      hfd, hne, hne']
  exact ⟨⟨h1, h2⟩,
    c9_conflict_halt_not_bypassable onePdf zeroIntegral manifest2 0 dataAtModes
      monitorInit "a1" "maintenance" "sig" "hash" 0 3600 h1 h2⟩

end DRE
